import Mathlib

/-!
# PixelWar-AI: verification of the pricing & payment-settlement core

A shallow embedding of the PixelWar backend (`src/backend/server.js`) and of
the on-chain settlement contract (`src/contracts/PixelWarTreasury.sol`),
together with theorems settling the specification claims about pricing,
payment verification, settlement distribution and the HTTP 402 claim flow.

USDC amounts in the JavaScript layer are decimal numbers; they are embedded
as exact rationals (`ℚ`).  USDC raw units in the Solidity layer are `uint256`
values far below overflow, embedded as `ℕ`.  JavaScript's `Math.round`
(round half toward +infinity) is embedded as `jsRound`.  Strings are
embedded as Lean `String`s, with character-list based helpers standing in
for `toLowerCase`/`trim`/regex tests so that every definition evaluates.
-/

namespace PixelWar

/-- Embedding of JavaScript `String.prototype.toLowerCase` (ASCII case fold,
which is all the server compares: hex addresses). -/
def lowerStr (s : String) : String := ⟨s.data.map Char.toLower⟩

/-- Embedding of JavaScript `String.prototype.trim`. -/
def jsTrim (s : String) : String :=
  ⟨((s.data.dropWhile Char.isWhitespace).reverse.dropWhile Char.isWhitespace).reverse⟩

/-- One character of the `[0-9A-Fa-f]` regex class. -/
def isHexDigitChar (c : Char) : Bool :=
  c.isDigit || (('a' ≤ c && c ≤ 'f') || ('A' ≤ c && c ≤ 'F'))

/-- JavaScript `Math.round`: round to the nearest integer, half toward +∞. -/
def jsRound (q : ℚ) : ℤ := ⌊q + 1/2⌋

namespace Server

/-- The string `'0x0000000000000000000000000000000000000000'`, the default
`OWNER_WALLET_ADDRESS` when the environment variable is unset. -/
def ZERO_ADDRESS : String := "0x0000000000000000000000000000000000000000"

/-- USDC contract address for the default network `base-sepolia`. -/
def USDC_ADDRESS : String := "0x036CbD53842c5426634e7929541eC2318f3dCF7e"

/-- The value `ethers.id('Transfer(address,address,uint256)')`: the keccak256 event
topic.  Its concrete hex value is irrelevant to every claim (the code only
compares log topics against it for equality), so it is embedded as a
distinguished string constant. -/
def TRANSFER_TOPIC : String := "keccak256:Transfer(address,address,uint256)"

def CANVAS_SIZE : ℕ := 1000

def INITIAL_PRICE : ℚ := 0.001

def PRICE_MULTIPLIER : ℚ := 1.3

def REBATE_RATIO : ℚ := 0.4

def TREASURY_RATIO : ℚ := 0.4

def LOOT_RATIO : ℚ := 0.1

def DEV_RATIO : ℚ := 0.1

/-- Embedding of `round6(n) = Math.round(n * 1e6) / 1e6`. -/
def round6 (n : ℚ) : ℚ := (jsRound (n * 1000000) : ℚ) / 1000000

/-- The `PixelData` record as stored in the canvas `Map`. -/
structure PixelData where
  owner : String
  color : String
  price : ℚ
  timestamp : ℕ
  tx_hash : String
deriving DecidableEq

/-- Embedding of `calcPrice(existing)`: `INITIAL_PRICE` for a fresh pixel, otherwise
`round6(existing.price * PRICE_MULTIPLIER)`. -/
def calcPrice (existing : Option PixelData) : ℚ :=
  match existing with
  | none => INITIAL_PRICE
  | some pd => round6 (pd.price * PRICE_MULTIPLIER)

/-- Embedding of `validateColor`: the test `^#[0-9A-Fa-f]{6}$`. -/
def validateColor (color : String) : Bool :=
  match color.data with
  | '#' :: rest => rest.length == 6 && rest.all isHexDigitChar
  | _ => false

/-- A parsed `X-PAYMENT` header (`parsePaymentHeader` output): the claims
only depend on the extracted `tx_hash`. -/
structure PaymentProof where
  tx_hash : String
deriving DecidableEq

/-- One receipt log entry; `data` is the decoded `uint256` word
(`BigInt(log.data)`). -/
structure LogEntry where
  address : String
  topics : List String
  data : ℤ
deriving DecidableEq

/-- A transaction receipt as returned by `provider.getTransactionReceipt`. -/
structure TxReceipt where
  status : ℕ
  logs : List LogEntry
deriving DecidableEq

/-- The external ledger-lookup collaborator: transaction hash to receipt
(`none` = not found on chain). -/
def Chain : Type := String → Option TxReceipt

/-- The `receipt.logs.find(...)` search for a USDC `Transfer` log whose
destination (`topics[2]` with the 12-byte pad dropped) is the owner wallet. -/
def matchingLog (ownerWallet : String) (logs : List LogEntry) : Option LogEntry :=
  let ownerLower := lowerStr ownerWallet
  let usdcLower := lowerStr USDC_ADDRESS
  logs.find? (fun l =>
    lowerStr l.address == usdcLower &&
    l.topics.head? == some TRANSFER_TOPIC &&
    l.topics.length == 3 &&
    lowerStr ("0x" ++ String.mk ((l.topics.getD 2 "").data.drop 26)) == ownerLower)

inductive VerifyResult where
  | ok : VerifyResult
  | rejected (reason : String) : VerifyResult
deriving DecidableEq

/-- Embedding of `verifyPaymentOnChain(paymentProof, expectedPriceUsdc)`.

The mutable module-level `usedTxHashes` set is passed in and the (possibly
extended) set is returned.  The order of checks follows the source: missing
`tx_hash`, anti-replay, dev-mode skip (owner wallet is the zero address),
receipt lookup, receipt status, `Transfer`-log match, amount comparison. -/
def verifyPaymentOnChain (ownerWallet : String) (chain : Chain) (used : List String)
    (paymentProof : Option PaymentProof) (expectedPriceUsdc : ℚ) :
    VerifyResult × List String :=
  match paymentProof with
  | none => (.rejected "missing tx_hash", used)
  | some proof =>
    if proof.tx_hash = "" then (.rejected "missing tx_hash", used)
    else if proof.tx_hash ∈ used then (.rejected "tx_hash already used", used)
    else if ownerWallet = ZERO_ADDRESS then (.ok, proof.tx_hash :: used)
    else
      match chain proof.tx_hash with
      | none => (.rejected "tx not found on chain", used)
      | some receipt =>
        if receipt.status ≠ 1 then (.rejected "tx failed on chain", used)
        else
          match matchingLog ownerWallet receipt.logs with
          | none => (.rejected "no matching USDC Transfer to owner", used)
          | some log =>
            let amount : ℤ := log.data
            let expectedRaw : ℤ := jsRound (expectedPriceUsdc * 1000000)
            if amount < expectedRaw then
              (.rejected ("amount too low: got " ++ toString amount ++
                          ", expected " ++ toString expectedRaw), used)
            else (.ok, proof.tx_hash :: used)

/-- One entry of the append-only `txLedger`. -/
structure TxRecord where
  x : ℕ
  y : ℕ
  buyer : String
  seller : Option String
  price_paid : ℚ
  tx_hash : String
  rebate_to_previous_owner : ℚ
  treasury_cut : ℚ
  loot_cut : ℚ
  dev_cut : ℚ
  timestamp : ℕ
deriving DecidableEq, Inhabited

/-- The server's mutable module state: `canvasStore`, `usedTxHashes`,
`txLedger`. -/
structure ServerState where
  canvas : ℕ × ℕ → Option PixelData
  usedTxHashes : List String
  txLedger : List TxRecord

/-- State at server start: empty canvas, empty replay set, empty ledger. -/
def initialState : ServerState := ⟨fun _ => none, [], []⟩

/-- One `POST /pixel/:x/:y` request: coordinates, body (`color`,
`agent_id`), the parsed `X-PAYMENT` header (`none` = header absent), and the
`Date.now()` value observed during the request. -/
structure ClaimRequest where
  x : ℕ
  y : ℕ
  color : String
  agent_id : String
  payment : Option PaymentProof
  now : ℕ

/-- The JSON body of a successful claim response. -/
structure SettleResponse where
  x : ℕ
  y : ℕ
  color : String
  owner : String
  price_paid : ℚ
  tx_hash : String
  rebate_to_previous_owner : ℚ
  treasury_cut : ℚ
  loot_cut : ℚ
  dev_cut : ℚ
  previous_owner : Option String
deriving DecidableEq

/-- Outcome of `POST /pixel/:x/:y`: HTTP 400, HTTP 402 quote, HTTP 402 with
`Invalid payment: <reason>`, or HTTP 200 settlement. -/
inductive PostResult where
  | badRequest (error : String) : PostResult
  | paymentRequired (price_usdc : ℚ) : PostResult
  | invalidPayment (error : String) : PostResult
  | settled (resp : SettleResponse) : PostResult
deriving DecidableEq

def isSettled : PostResult → Bool
  | .settled _ => true
  | _ => false

/-- The `POST /pixel/:x/:y` handler.  Check order follows the source:
coordinate range, color regex, non-empty `agent_id`, then the x402 branch on
the payment header; with a header the payment is verified against the price
recomputed now, and on success the distribution of the *previous* price is
computed, the pixel is overwritten and a ledger entry is appended. -/
def postPixel (ownerWallet : String) (chain : Chain) (st : ServerState)
    (req : ClaimRequest) : PostResult × ServerState :=
  if ¬ (req.x < CANVAS_SIZE ∧ req.y < CANVAS_SIZE) then
    (.badRequest "Coordinates out of range (0-999)", st)
  else if ¬ validateColor req.color then
    (.badRequest "Invalid color. Must be \x22#RRGGBB\x22", st)
  else if jsTrim req.agent_id = "" then
    (.badRequest "agent_id is required", st)
  else
    let existing := st.canvas (req.x, req.y)
    let price_usdc := calcPrice existing
    match req.payment with
    | none => (.paymentRequired price_usdc, st)
    | some proof =>
      match verifyPaymentOnChain ownerWallet chain st.usedTxHashes (some proof) price_usdc with
      | (.rejected reason, used') =>
        (.invalidPayment ("Invalid payment: " ++ reason),
         { st with usedTxHashes := used' })
      | (.ok, used') =>
        let price_paid := price_usdc
        match existing with
        | none =>
          let newPixel : PixelData :=
            { owner := jsTrim req.agent_id, color := req.color, price := price_paid,
              timestamp := req.now, tx_hash := proof.tx_hash }
          let record : TxRecord :=
            { x := req.x, y := req.y, buyer := jsTrim req.agent_id, seller := none,
              price_paid := price_paid, tx_hash := proof.tx_hash,
              rebate_to_previous_owner := 0, treasury_cut := 0, loot_cut := 0,
              dev_cut := 0, timestamp := req.now }
          (.settled
            { x := req.x, y := req.y, color := req.color, owner := jsTrim req.agent_id,
              price_paid := price_paid, tx_hash := proof.tx_hash,
              rebate_to_previous_owner := 0, treasury_cut := 0, loot_cut := 0,
              dev_cut := 0, previous_owner := none },
           { canvas := fun p => if p = (req.x, req.y) then some newPixel else st.canvas p,
             usedTxHashes := used',
             txLedger := st.txLedger ++ [record] })
        | some pd =>
          let rebate_to_previous_owner := round6 (pd.price * REBATE_RATIO)
          let treasury_cut := round6 (pd.price * TREASURY_RATIO)
          let loot_cut := round6 (pd.price * LOOT_RATIO)
          let dev_cut := round6 (pd.price * DEV_RATIO)
          let newPixel : PixelData :=
            { owner := jsTrim req.agent_id, color := req.color, price := price_paid,
              timestamp := req.now, tx_hash := proof.tx_hash }
          let record : TxRecord :=
            { x := req.x, y := req.y, buyer := jsTrim req.agent_id, seller := some pd.owner,
              price_paid := price_paid, tx_hash := proof.tx_hash,
              rebate_to_previous_owner := rebate_to_previous_owner,
              treasury_cut := treasury_cut, loot_cut := loot_cut,
              dev_cut := dev_cut, timestamp := req.now }
          (.settled
            { x := req.x, y := req.y, color := req.color, owner := jsTrim req.agent_id,
              price_paid := price_paid, tx_hash := proof.tx_hash,
              rebate_to_previous_owner := rebate_to_previous_owner,
              treasury_cut := treasury_cut, loot_cut := loot_cut,
              dev_cut := dev_cut, previous_owner := some pd.owner },
           { canvas := fun p => if p = (req.x, req.y) then some newPixel else st.canvas p,
             usedTxHashes := used',
             txLedger := st.txLedger ++ [record] })

/-- Outcome of `GET /pixel/:x/:y`. -/
inductive GetPixelResult where
  | badRequest (error : String) : GetPixelResult
  | ok (x y : ℕ) (owner : Option String) (color : Option String) (price : ℚ)
      (timestamp : Option ℕ) (occupied : Bool) : GetPixelResult
deriving DecidableEq

/-- The `GET /pixel/:x/:y` handler: returns the stored pixel data, or the
default state (`price` = `INITIAL_PRICE`, unoccupied) for a fresh pixel. -/
def getPixel (st : ServerState) (x y : ℕ) : GetPixelResult :=
  if ¬ (x < CANVAS_SIZE ∧ y < CANVAS_SIZE) then
    .badRequest "Coordinates out of range (0-999)"
  else
    match st.canvas (x, y) with
    | none => .ok x y none none INITIAL_PRICE none false
    | some d => .ok x y (some d.owner) (some d.color) d.price (some d.timestamp) true

/-- Outcome of `GET /price/:x/:y`. -/
inductive GetPriceResult where
  | badRequest (error : String) : GetPriceResult
  | ok (x y : ℕ) (price_usdc : ℚ) (occupied : Bool)
      (current_owner : Option String) : GetPriceResult
deriving DecidableEq

/-- The `GET /price/:x/:y` handler: quotes `calcPrice` on the stored state. -/
def getPrice (st : ServerState) (x y : ℕ) : GetPriceResult :=
  if ¬ (x < CANVAS_SIZE ∧ y < CANVAS_SIZE) then
    .badRequest "Coordinates out of range (0-999)"
  else
    match st.canvas (x, y) with
    | none => .ok x y (calcPrice none) false none
    | some d => .ok x y (calcPrice (some d)) true (some d.owner)

/-- Sequential execution of a list of claim requests against the server. -/
def runClaims (ownerWallet : String) (chain : Chain) :
    ServerState → List ClaimRequest → List PostResult × ServerState
  | st, [] => ([], st)
  | st, req :: reqs =>
    let step := postPixel ownerWallet chain st req
    let rest := runClaims ownerWallet chain step.2 reqs
    (step.1 :: rest.1, rest.2)

/-- Number of `settled` outcomes that consumed the transaction hash `h`. -/
def settledCount (h : String) : List PostResult → ℕ
  | [] => 0
  | .settled resp :: rs => (if resp.tx_hash = h then 1 else 0) + settledCount h rs
  | _ :: rs => settledCount h rs

end Server

namespace Treasury

def BASE_PRICE : ℕ := 1000

def PRICE_MULTIPLIER_BPS : ℕ := 15000

def BPS_DENOMINATOR : ℕ := 10000

def REBATE_BPS : ℕ := 4000

def TREASURY_BPS : ℕ := 4000

def LOOT_BPS : ℕ := 1000

def DEV_BPS : ℕ := 1000

/-- The four cuts recorded by one `PaymentDistributed` event. -/
structure DistRecord where
  rebateAmount : ℕ
  treasuryAmount : ℕ
  lootAmount : ℕ
  devAmount : ℕ
deriving DecidableEq

/-- Embedding of `_distribute(pixelId, amount, previousOwner)` (the `pixelId` only feeds
the event, so it is omitted).  `previousOwner = none` embeds `address(0)`.
Solidity `uint256` division is floor division on `ℕ`. -/
def _distribute (amount : ℕ) (previousOwner : Option String) : DistRecord :=
  let devAmount := amount * DEV_BPS / BPS_DENOMINATOR
  let lootAmount := amount * LOOT_BPS / BPS_DENOMINATOR
  match previousOwner with
  | some _ =>
    let rebateAmount := amount * REBATE_BPS / BPS_DENOMINATOR
    ⟨rebateAmount, amount - rebateAmount - lootAmount - devAmount, lootAmount, devAmount⟩
  | none =>
    ⟨0, amount - lootAmount - devAmount, lootAmount, devAmount⟩

/-- Contract storage.  `pixelOwner` maps a pixel id to its owner
(`none` embeds the `address(0)` mapping default). -/
structure TreasuryState where
  pixelOwner : ℕ → Option String
  pixelPrice : ℕ → ℕ
  treasuryBalance : ℕ
  lootBalance : ℕ

/-- Storage right after deployment: all mappings at their defaults. -/
def initialTreasury : TreasuryState := ⟨fun _ => none, fun _ => 0, 0, 0⟩

/-- Embedding of `_encodePixelId`, including its range `require`. -/
def encodePixelId (x y : ℕ) : Except String ℕ :=
  if x < 10000 ∧ y < 10000 then .ok (x * 10000 + y)
  else .error "Coordinates out of range"

/-- Embedding of `getPixelPrice`: the stored price, or `BASE_PRICE` when the slot is 0. -/
def getPixelPrice (st : TreasuryState) (pixelId : ℕ) : ℕ :=
  let price := st.pixelPrice pixelId
  if price = 0 then BASE_PRICE else price

/-- Embedding of `capturePixel(x, y, amount)` called by `sender`.  The USDC token moves
(`safeTransferFrom` / `safeTransfer`) are external to the storage modelled
here; the storage effects and the emitted distribution are returned, and a
failed `require` is an `Except.error` (revert). -/
def capturePixel (st : TreasuryState) (sender : String) (x y amount : ℕ) :
    Except String (TreasuryState × DistRecord) := do
  let pixelId ← encodePixelId x y
  let requiredPrice := getPixelPrice st pixelId
  if amount < requiredPrice then
    throw "Insufficient payment"
  else
    let previousOwner := st.pixelOwner pixelId
    if previousOwner = some sender then
      throw "Already own this pixel"
    else
      let d := _distribute amount previousOwner
      let st' : TreasuryState :=
        { pixelOwner := fun pid => if pid = pixelId then some sender else st.pixelOwner pid,
          pixelPrice := fun pid =>
            if pid = pixelId then amount * PRICE_MULTIPLIER_BPS / BPS_DENOMINATOR
            else st.pixelPrice pid,
          treasuryBalance := st.treasuryBalance + d.treasuryAmount,
          lootBalance := st.lootBalance + d.lootAmount }
      return (st', d)

end Treasury

namespace Server

/-- Modelled from the spec: the reference rounding rule of §4.1, "rounded to
6 fractional digits ... the reference behavior rounds to the nearest unit at
1e-6 resolution", half away from zero.  Used only to compare the code's
`round6`/`Math.round` against the spec's wording. -/
def roundHalfAwayFromZero (q : ℚ) : ℤ :=
  if 0 ≤ q then ⌊q + 1/2⌋ else ⌈q - 1/2⌉

/-- Canvas-store invariant: every stored price is a nonnegative whole number
of USDC raw units (a multiple of 1e-6).  It holds at server start and is
preserved by every request. -/
def GoodCanvas (st : ServerState) : Prop :=
  ∀ x y pd, st.canvas (x, y) = some pd → ∃ m : ℕ, pd.price = (m : ℚ) / 1000000

/-! Concrete fixtures used to exhibit counterexamples and witnesses. -/

/-- A ledger collaborator with no transactions at all. -/
def emptyChain : Chain := fun _ => none

/-- The pixel state written by a first claim of `(0,0)` by `alice` paying
the base price with transaction `0xh1`. -/
def pdAlice : PixelData :=
  { owner := "alice", color := "#aaaaaa", price := 0.001, timestamp := 1, tx_hash := "0xh1" }

/-- Server state after that first claim: `(0,0)` owned by `alice`,
`0xh1` consumed. -/
def stAlice : ServerState :=
  { canvas := fun p => if p = (0, 0) then some pdAlice else none,
    usedTxHashes := ["0xh1"],
    txLedger := [] }

/-- Request: `alice` claims the fresh pixel `(0,0)`, paying with `0xh1`. -/
def reqAlice1 : ClaimRequest :=
  { x := 0, y := 0, color := "#aaaaaa", agent_id := "alice",
    payment := some { tx_hash := "0xh1" }, now := 1 }

/-- Request: `bob` claims `(0,0)` from `alice`, paying with `0xh2`. -/
def reqBob2 : ClaimRequest :=
  { x := 0, y := 0, color := "#bbbbbb", agent_id := "bob",
    payment := some { tx_hash := "0xh2" }, now := 2 }

/-- Request: `alice` claims `(0,0)` again — a self-purchase — paying with `0xh2`. -/
def reqAlice2 : ClaimRequest :=
  { x := 0, y := 0, color := "#cccccc", agent_id := "alice",
    payment := some { tx_hash := "0xh2" }, now := 2 }

/-- Request: `bob` tries to claim `(0,0)` replaying the already-consumed
transaction `0xh1`. -/
def reqBobReplay : ClaimRequest :=
  { x := 0, y := 0, color := "#bbbbbb", agent_id := "bob",
    payment := some { tx_hash := "0xh1" }, now := 3 }

/-- A concrete non-zero owner wallet address. -/
def ownerF : String := "0xffffffffffffffffffffffffffffffffffffffff"

/-- The 32-byte `Transfer` log topic encoding `ownerF` as recipient
(12 zero bytes of padding followed by the 20 address bytes). -/
def topicToOwnerF : String :=
  "0x000000000000000000000000ffffffffffffffffffffffffffffffffffffffff"

/-- A USDC `Transfer(from, ownerF, amount)` log entry. -/
def mkTransferLog (amount : ℤ) : LogEntry :=
  { address := USDC_ADDRESS, topics := [TRANSFER_TOPIC, "0xfrom", topicToOwnerF],
    data := amount }

/-- A successful receipt containing exactly that transfer. -/
def mkReceipt (amount : ℤ) : TxReceipt := { status := 1, logs := [mkTransferLog amount] }

/-- A ledger collaborator on which `0xh1` resolves to a successful transfer
of `amount` USDC raw units to `ownerF`. -/
def chainWith (amount : ℤ) : Chain :=
  fun h => if h = "0xh1" then some (mkReceipt amount) else none

end Server

/-! ## Theorems -/

open Server Treasury

/-- C1 counterexample: the off-chain server violates conservation.  With
`(0,0)` owned by `alice` at 0.001 USDC, `bob`'s successful claim pays the
gross `price_paid = 0.0013`, but the four cuts of the appended ledger record
are computed from the *previous* price and sum to 0.001 ≠ 0.0013. -/
theorem C1_counterexample :
    isSettled (postPixel ZERO_ADDRESS emptyChain stAlice reqBob2).1 = true ∧
    ((postPixel ZERO_ADDRESS emptyChain stAlice reqBob2).2.txLedger.getD 0 default).rebate_to_previous_owner +
      ((postPixel ZERO_ADDRESS emptyChain stAlice reqBob2).2.txLedger.getD 0 default).treasury_cut +
      ((postPixel ZERO_ADDRESS emptyChain stAlice reqBob2).2.txLedger.getD 0 default).loot_cut +
      ((postPixel ZERO_ADDRESS emptyChain stAlice reqBob2).2.txLedger.getD 0 default).dev_cut ≠
      ((postPixel ZERO_ADDRESS emptyChain stAlice reqBob2).2.txLedger.getD 0 default).price_paid := by
  constructor
  · rfl
  · have hrec : (postPixel ZERO_ADDRESS emptyChain stAlice reqBob2).2.txLedger.getD 0 default
        = { x := 0, y := 0, buyer := "bob", seller := some "alice",
            price_paid := calcPrice (some pdAlice), tx_hash := "0xh2",
            rebate_to_previous_owner := round6 (pdAlice.price * REBATE_RATIO),
            treasury_cut := round6 (pdAlice.price * TREASURY_RATIO),
            loot_cut := round6 (pdAlice.price * LOOT_RATIO),
            dev_cut := round6 (pdAlice.price * DEV_RATIO),
            timestamp := 2 } := rfl
    rw [hrec]
    norm_num [pdAlice, calcPrice, round6, jsRound, INITIAL_PRICE, PRICE_MULTIPLIER,
      REBATE_RATIO, TREASURY_RATIO, LOOT_RATIO, DEV_RATIO]

/-- C1 (amended): conservation holds for the on-chain settlement path: every
distribution computed by `PixelWarTreasury._distribute` has its four cuts
summing exactly to the gross amount, for every amount (including 1 raw unit
and amounts not divisible by the bps denominators), because the treasury cut
is defined as the remainder.  (The off-chain server's ledger records instead
split the previous price — see the counterexample.) -/
theorem C1_contract_conservation (amount : ℕ) (previousOwner : Option String) :
    (Treasury._distribute amount previousOwner).rebateAmount +
      (Treasury._distribute amount previousOwner).treasuryAmount +
      (Treasury._distribute amount previousOwner).lootAmount +
      (Treasury._distribute amount previousOwner).devAmount = amount := by
  cases previousOwner <;>
    simp only [Treasury._distribute, Treasury.DEV_BPS, Treasury.LOOT_BPS,
      Treasury.REBATE_BPS, Treasury.BPS_DENOMINATOR] <;>
    omega

/-- C2 counterexample: a first claim on the server yields an all-zero
distribution record, not the 80/10/10 split: `alice`'s claim of the fresh
pixel `(0,0)` settles with gross 0.001 but `treasury_cut = 0 ≠ 0.8 × 0.001`. -/
theorem C2_counterexample :
    isSettled (postPixel ZERO_ADDRESS emptyChain initialState reqAlice1).1 = true ∧
    ((postPixel ZERO_ADDRESS emptyChain initialState reqAlice1).2.txLedger.getD 0 default).price_paid = 0.001 ∧
    ((postPixel ZERO_ADDRESS emptyChain initialState reqAlice1).2.txLedger.getD 0 default).treasury_cut = 0 ∧
    ((postPixel ZERO_ADDRESS emptyChain initialState reqAlice1).2.txLedger.getD 0 default).treasury_cut ≠
      0.8 * ((postPixel ZERO_ADDRESS emptyChain initialState reqAlice1).2.txLedger.getD 0 default).price_paid := by
  have hrec : (postPixel ZERO_ADDRESS emptyChain initialState reqAlice1).2.txLedger.getD 0 default
      = { x := 0, y := 0, buyer := "alice", seller := none,
          price_paid := calcPrice none, tx_hash := "0xh1",
          rebate_to_previous_owner := 0, treasury_cut := 0, loot_cut := 0,
          dev_cut := 0, timestamp := 1 } := rfl
  refine ⟨rfl, ?_, ?_, ?_⟩ <;> rw [hrec] <;>
    norm_num [calcPrice, INITIAL_PRICE]

/-- C2 (amended): on the on-chain settlement path a first claim (no previous
owner) has `rebate = 0`, `dev` and `loot` each ⌊10%⌋ of gross, and treasury
the remainder (80% up to rounding); in particular a first claim paying 1000
raw units yields `{rebate 0, treasury 800, loot 100, dev 100}`.  (The
off-chain server records `{0, 0, 0, 0}` for a first claim — see the
counterexample.) -/
theorem C2_contract_first_claim :
    Treasury._distribute 1000 none = ⟨0, 800, 100, 100⟩ ∧
    ∀ amount : ℕ,
      (Treasury._distribute amount none).rebateAmount = 0 ∧
      (Treasury._distribute amount none).devAmount =
        amount * Treasury.DEV_BPS / Treasury.BPS_DENOMINATOR ∧
      (Treasury._distribute amount none).lootAmount =
        amount * Treasury.LOOT_BPS / Treasury.BPS_DENOMINATOR ∧
      (Treasury._distribute amount none).treasuryAmount =
        amount - amount * Treasury.LOOT_BPS / Treasury.BPS_DENOMINATOR
               - amount * Treasury.DEV_BPS / Treasury.BPS_DENOMINATOR := by
  exact ⟨by decide, fun amount => ⟨rfl, rfl, rfl, rfl⟩⟩

/-- C3 counterexample: starting from the shared base price of 1000 raw units
(0.001 USDC), the server quotes 1300 raw units for the next claim while the
contract stores 1500 — the two pricing layers diverge immediately. -/
theorem C3_counterexample :
    jsRound (calcPrice (some pdAlice) * 1000000) = 1300 ∧
    (Treasury.capturePixel Treasury.initialTreasury "0xa" 0 0 1000).map
      (fun r => r.1.pixelPrice 0) = Except.ok 1500 ∧
    (1300 : ℤ) ≠ 1500 := by
  refine ⟨?_, rfl, by decide⟩
  norm_num [calcPrice, round6, jsRound, pdAlice, PRICE_MULTIPLIER]

/-- C3 (amended): the base price (1000 raw units) and all four split
percentages (40/40/10/10) match between the off-chain server and the
on-chain contract, but the price multipliers do not: the server uses 1.3
while the contract uses 15000 bps = 1.5, so the two layers do not compute
the same next price. -/
theorem C3_constants :
    jsRound (INITIAL_PRICE * 1000000) = (Treasury.BASE_PRICE : ℤ) ∧
    REBATE_RATIO = (Treasury.REBATE_BPS : ℚ) / (Treasury.BPS_DENOMINATOR : ℚ) ∧
    TREASURY_RATIO = (Treasury.TREASURY_BPS : ℚ) / (Treasury.BPS_DENOMINATOR : ℚ) ∧
    LOOT_RATIO = (Treasury.LOOT_BPS : ℚ) / (Treasury.BPS_DENOMINATOR : ℚ) ∧
    DEV_RATIO = (Treasury.DEV_BPS : ℚ) / (Treasury.BPS_DENOMINATOR : ℚ) ∧
    PRICE_MULTIPLIER ≠ (Treasury.PRICE_MULTIPLIER_BPS : ℚ) / (Treasury.BPS_DENOMINATOR : ℚ) := by
  norm_num [jsRound, INITIAL_PRICE, PRICE_MULTIPLIER, REBATE_RATIO, TREASURY_RATIO,
    LOOT_RATIO, DEV_RATIO, Treasury.BASE_PRICE, Treasury.REBATE_BPS, Treasury.TREASURY_BPS,
    Treasury.LOOT_BPS, Treasury.DEV_BPS, Treasury.BPS_DENOMINATOR, Treasury.PRICE_MULTIPLIER_BPS]

/-- A rejecting verification never touches the replay set. -/
theorem verify_rejected_used {ownerWallet : String} {chain : Chain} {used : List String}
    {paymentProof : Option PaymentProof} {expectedPriceUsdc : ℚ} {r : String}
    {used' : List String}
    (h : verifyPaymentOnChain ownerWallet chain used paymentProof expectedPriceUsdc
          = (.rejected r, used')) : used' = used := by
  simp only [verifyPaymentOnChain] at h
  repeat' split at h
  all_goals simp_all

/-- A successful verification consumed a fresh, non-empty hash and recorded
exactly it. -/
theorem verify_ok_used {ownerWallet : String} {chain : Chain} {used : List String}
    {proof : PaymentProof} {expectedPriceUsdc : ℚ} {used' : List String}
    (h : verifyPaymentOnChain ownerWallet chain used (some proof) expectedPriceUsdc
          = (.ok, used')) :
    used' = proof.tx_hash :: used ∧ proof.tx_hash ∉ used ∧ proof.tx_hash ≠ "" := by
  simp only [verifyPaymentOnChain] at h
  repeat' split at h
  all_goals simp_all

/-- A replayed (already-used) non-empty hash is always rejected with the
already-used reason, leaving the replay set unchanged. -/
theorem verify_replay {ownerWallet : String} {chain : Chain} {used : List String}
    {proof : PaymentProof} {expectedPriceUsdc : ℚ}
    (h1 : proof.tx_hash ∈ used) (h2 : proof.tx_hash ≠ "") :
    verifyPaymentOnChain ownerWallet chain used (some proof) expectedPriceUsdc
      = (.rejected "tx_hash already used", used) := by
  simp [verifyPaymentOnChain, h1, h2]

/-- Anatomy of a settled claim: the request carried a fresh non-empty proof,
the hash was recorded, the gross paid price is `calcPrice` of the pre-claim
state, the pixel was overwritten with exactly the new data, and no other
pixel changed. -/
theorem postPixel_settled_spec {ownerWallet : String} {chain : Chain} {st : ServerState}
    {req : ClaimRequest} {resp : SettleResponse} {st' : ServerState}
    (h : postPixel ownerWallet chain st req = (.settled resp, st')) :
    ∃ proof : PaymentProof, req.payment = some proof ∧
      resp.tx_hash = proof.tx_hash ∧
      proof.tx_hash ∉ st.usedTxHashes ∧ proof.tx_hash ≠ "" ∧
      st'.usedTxHashes = proof.tx_hash :: st.usedTxHashes ∧
      resp.price_paid = calcPrice (st.canvas (req.x, req.y)) ∧
      st'.canvas (req.x, req.y) =
        some { owner := jsTrim req.agent_id, color := req.color,
               price := calcPrice (st.canvas (req.x, req.y)),
               timestamp := req.now, tx_hash := proof.tx_hash } ∧
      (∀ p, p ≠ (req.x, req.y) → st'.canvas p = st.canvas p) ∧
      req.x < CANVAS_SIZE ∧ req.y < CANVAS_SIZE := by
  simp only [postPixel] at h
  repeat' split at h
  all_goals simp_all
  all_goals
    (obtain ⟨hresp, hst'⟩ := h
     subst hresp
     subst hst'
     rename_i hpay hver hcan
     obtain ⟨hu, hnm, hne⟩ := verify_ok_used hver
     refine ⟨rfl, hnm, hne, hu, rfl, by simp, ?_⟩
     intro a b hab
     have hne2 : ¬((a, b) = (req.x, req.y)) := by
       simp only [Prod.mk.injEq, not_and]
       exact hab
     simp [hne2])

/-- Any claim outcome other than settlement leaves the server state
entirely unchanged. -/
theorem postPixel_not_settled_state {ownerWallet : String} {chain : Chain}
    {st : ServerState} {req : ClaimRequest} {res : PostResult} {st' : ServerState}
    (h : postPixel ownerWallet chain st req = (res, st')) (hns : isSettled res = false) :
    st' = st := by
  simp only [postPixel] at h
  repeat' split at h
  all_goals cases h
  all_goals try rfl
  all_goals try (simp [isSettled] at hns)
  all_goals (rename_i hver; rw [verify_rejected_used hver])

/-- The replay set only ever grows. -/
theorem postPixel_used_mono {ownerWallet : String} {chain : Chain} {st : ServerState}
    {req : ClaimRequest} {res : PostResult} {st' : ServerState}
    (h : postPixel ownerWallet chain st req = (res, st')) :
    ∀ a, a ∈ st.usedTxHashes → a ∈ st'.usedTxHashes := by
  intro a ha
  cases res with
  | settled resp =>
    obtain ⟨proof, -, -, -, -, hu, -⟩ := postPixel_settled_spec h
    rw [hu]
    exact List.mem_cons_of_mem _ ha
  | badRequest e => rw [postPixel_not_settled_state h rfl]; exact ha
  | paymentRequired p => rw [postPixel_not_settled_state h rfl]; exact ha
  | invalidPayment e => rw [postPixel_not_settled_state h rfl]; exact ha

/-- A hash already in the replay set can never be consumed again: no
settlement in any subsequent run of requests carries it. -/
theorem settledCount_zero_of_mem {ownerWallet : String} {chain : Chain} :
    ∀ (reqs : List ClaimRequest) (st : ServerState) (h : String),
      h ∈ st.usedTxHashes →
      settledCount h (runClaims ownerWallet chain st reqs).1 = 0 := by
  intro reqs
  induction reqs with
  | nil => intro st h _; rfl
  | cons req reqs ih =>
    intro st h hmem
    simp only [runClaims]
    rcases hp : postPixel ownerWallet chain st req with ⟨res, st'⟩
    have hmem' : h ∈ st'.usedTxHashes := postPixel_used_mono hp h hmem
    cases res with
    | settled resp =>
      obtain ⟨proof, -, htx, hnm, -, -, -⟩ := postPixel_settled_spec hp
      have hne : resp.tx_hash ≠ h := by
        rw [htx]; intro hcontra; exact hnm (hcontra ▸ hmem)
      simp [settledCount, hp, hne, ih st' h hmem']
    | badRequest e => simp [settledCount, hp, ih st' h hmem']
    | paymentRequired p => simp [settledCount, hp, ih st' h hmem']
    | invalidPayment e => simp [settledCount, hp, ih st' h hmem']

/-- In dev mode (owner wallet = zero address), a payment proof whose
`tx_hash` is non-empty and unused verifies successfully, consuming the hash
and never consulting the chain. -/
theorem verify_devmode (chain : Chain) (used : List String) (proof : PaymentProof)
    (expectedPriceUsdc : ℚ) (h1 : proof.tx_hash ≠ "") (h2 : proof.tx_hash ∉ used) :
    verifyPaymentOnChain ZERO_ADDRESS chain used (some proof) expectedPriceUsdc
      = (.ok, proof.tx_hash :: used) := by
  simp [verifyPaymentOnChain, h1, h2]

/-- C4: with `OWNER_WALLET_ADDRESS` equal to the zero address (the default
configuration), `verifyPaymentOnChain` returns ok for every proof whose
`tx_hash` is present and not yet used — for *every* chain and *every*
expected price, i.e. without resolving the transaction or checking
recipient, asset, or amount — and consequently any well-formed claim request
carrying a fresh fabricated hash settles. -/
theorem C4_devmode_accepts_everything :
    (∀ (chain : Chain) (used : List String) (proof : PaymentProof) (expectedPriceUsdc : ℚ),
       proof.tx_hash ≠ "" → proof.tx_hash ∉ used →
       verifyPaymentOnChain ZERO_ADDRESS chain used (some proof) expectedPriceUsdc
         = (.ok, proof.tx_hash :: used)) ∧
    (∀ (chain : Chain) (st : ServerState) (req : ClaimRequest) (proof : PaymentProof),
       req.x < CANVAS_SIZE → req.y < CANVAS_SIZE → validateColor req.color = true →
       jsTrim req.agent_id ≠ "" → req.payment = some proof →
       proof.tx_hash ≠ "" → proof.tx_hash ∉ st.usedTxHashes →
       isSettled (postPixel ZERO_ADDRESS chain st req).1 = true) := by
  constructor
  · exact verify_devmode
  · intro chain st req proof hx hy hc ha hp h1 h2
    have hv := verify_devmode chain st.usedTxHashes proof
      (calcPrice (st.canvas (req.x, req.y))) h1 h2
    simp only [postPixel, hp, hv, hx, hy, hc, ha]
    simp only [and_self, not_true_eq_false, if_false, Bool.true_eq_false, if_neg ha]
    cases hcv : st.canvas (req.x, req.y) <;> simp [hcv, isSettled]

/-- C4 witness: a fabricated, never-seen hash is accepted in dev mode at an
arbitrary expected price against an empty chain, and `alice`'s claim with it
settles. -/
theorem C4_witness :
    verifyPaymentOnChain ZERO_ADDRESS emptyChain [] (some { tx_hash := "0xfabricated" }) 123
      = (.ok, ["0xfabricated"]) ∧
    isSettled (postPixel ZERO_ADDRESS emptyChain initialState reqAlice1).1 = true :=
  ⟨C4_devmode_accepts_everything.1 emptyChain [] { tx_hash := "0xfabricated" } 123
     (by decide) (by decide),
   C4_devmode_accepts_everything.2 emptyChain initialState reqAlice1 { tx_hash := "0xh1" }
     (by decide) (by decide) (by decide) (by decide) rfl (by decide) (by decide)⟩

/-- C5: anti-replay.  In every sequential run of claim requests, each
distinct `txReference` is consumed by at most one settled outcome; and a
well-formed claim attempt presenting an already-consumed non-empty hash is
rejected with exactly the already-used reason, leaving the state unchanged. -/
theorem C5_no_replay :
    (∀ (ownerWallet : String) (chain : Chain) (st : ServerState)
       (reqs : List ClaimRequest) (h : String),
       settledCount h (runClaims ownerWallet chain st reqs).1 ≤ 1) ∧
    (∀ (ownerWallet : String) (chain : Chain) (st : ServerState) (req : ClaimRequest)
       (proof : PaymentProof),
       req.x < CANVAS_SIZE → req.y < CANVAS_SIZE → validateColor req.color = true →
       jsTrim req.agent_id ≠ "" → req.payment = some proof →
       proof.tx_hash ∈ st.usedTxHashes → proof.tx_hash ≠ "" →
       postPixel ownerWallet chain st req
         = (.invalidPayment "Invalid payment: tx_hash already used", st)) := by
  constructor
  · intro ownerWallet chain st reqs h
    induction reqs generalizing st with
    | nil => simp [runClaims, settledCount]
    | cons req reqs ih =>
      simp only [runClaims]
      rcases hp : postPixel ownerWallet chain st req with ⟨res, st'⟩
      cases res with
      | settled resp =>
        by_cases hh : resp.tx_hash = h
        · obtain ⟨proof, -, htx, -, -, hu, -⟩ := postPixel_settled_spec hp
          have hmem : h ∈ st'.usedTxHashes := by
            rw [hu, ← htx, hh]
            exact List.mem_cons_self _ _
          simp [settledCount, hh, settledCount_zero_of_mem reqs st' h hmem]
        · simp [settledCount, hh, ih st']
      | badRequest e => simp [settledCount, ih st']
      | paymentRequired p => simp [settledCount, ih st']
      | invalidPayment e => simp [settledCount, ih st']
  · intro ownerWallet chain st req proof hx hy hc ha hp hmem hne
    have hv := @verify_replay ownerWallet chain st.usedTxHashes proof
      (calcPrice (st.canvas (req.x, req.y))) hmem hne
    simp only [postPixel, hp, hv, hx, hy, hc, and_self, not_true_eq_false, if_false,
      if_neg ha]
    rfl

/-- C5 witness: running `alice`'s claim and then `bob`'s replay of `0xh1`
from a fresh server settles `0xh1` exactly once, and the replay against the
resulting state is rejected with the already-used reason. -/
theorem C5_witness :
    settledCount "0xh1"
      (runClaims ZERO_ADDRESS emptyChain initialState [reqAlice1, reqBobReplay]).1 ≤ 1 ∧
    postPixel ZERO_ADDRESS emptyChain stAlice reqBobReplay
      = (.invalidPayment "Invalid payment: tx_hash already used", stAlice) :=
  ⟨C5_no_replay.1 ZERO_ADDRESS emptyChain initialState [reqAlice1, reqBobReplay] "0xh1",
   C5_no_replay.2 ZERO_ADDRESS emptyChain stAlice reqBobReplay { tx_hash := "0xh1" }
     (by decide) (by decide) (by decide) (by decide) rfl (by decide) (by decide)⟩

/-- C6: in verifying mode (owner wallet non-zero), once a fresh proof
resolves to a successful receipt with a matching USDC `Transfer` to the
owner wallet, the verifier rejects exactly when the transferred amount is
strictly below the expected raw amount, and accepts every amount greater
than or equal to it. -/
theorem C6_underpayment_rejected (ownerWallet : String) (chain : Chain) (used : List String)
    (proof : PaymentProof) (expectedPriceUsdc : ℚ) (receipt : TxReceipt) (log : LogEntry)
    (hown : ownerWallet ≠ ZERO_ADDRESS) (hpresent : proof.tx_hash ≠ "")
    (hfresh : proof.tx_hash ∉ used) (hchain : chain proof.tx_hash = some receipt)
    (hstatus : receipt.status = 1) (hlog : matchingLog ownerWallet receipt.logs = some log) :
    (log.data < jsRound (expectedPriceUsdc * 1000000) →
       verifyPaymentOnChain ownerWallet chain used (some proof) expectedPriceUsdc
         = (.rejected ("amount too low: got " ++ toString log.data ++ ", expected "
             ++ toString (jsRound (expectedPriceUsdc * 1000000))), used)) ∧
    (jsRound (expectedPriceUsdc * 1000000) ≤ log.data →
       verifyPaymentOnChain ownerWallet chain used (some proof) expectedPriceUsdc
         = (.ok, proof.tx_hash :: used)) := by
  constructor <;> intro hamt
  · simp [verifyPaymentOnChain, hpresent, hfresh, hown, hchain, hstatus, hlog, hamt]
  · simp [verifyPaymentOnChain, hpresent, hfresh, hown, hchain, hstatus, hlog,
      not_lt.mpr hamt]

/-- C6 witness: against a chain resolving `0xh1` to a transfer of 999 raw
units to the owner wallet, a 0.001 USDC (1000 raw) expectation rejects with
the amount reason; with a 1000 raw transfer it accepts. -/
theorem C6_witness :
    verifyPaymentOnChain ownerF (chainWith 999) [] (some { tx_hash := "0xh1" }) 0.001
      = (.rejected ("amount too low: got " ++ toString (999 : ℤ) ++ ", expected "
          ++ toString (jsRound ((0.001 : ℚ) * 1000000))), []) ∧
    verifyPaymentOnChain ownerF (chainWith 1000) [] (some { tx_hash := "0xh1" }) 0.001
      = (.ok, ["0xh1"]) :=
  ⟨(C6_underpayment_rejected ownerF (chainWith 999) [] { tx_hash := "0xh1" } 0.001
      (mkReceipt 999) (mkTransferLog 999) (by decide) (by decide) (by decide) rfl rfl
      (by decide)).1 (by norm_num [jsRound, mkTransferLog]),
   (C6_underpayment_rejected ownerF (chainWith 1000) [] { tx_hash := "0xh1" } 0.001
      (mkReceipt 1000) (mkTransferLog 1000) (by decide) (by decide) (by decide) rfl rfl
      (by decide)).2 (by norm_num [jsRound, mkTransferLog])⟩

/-- C9: whenever payment verification rejects a proof, the claim leaves the
whole server state untouched — canvas, replay set and ledger — and the 402
response body carries `Invalid payment: ` followed by the verifier's
distinguishing reason. -/
theorem C9_rejection_preserves_state (ownerWallet : String) (chain : Chain)
    (st : ServerState) (req : ClaimRequest) (e : String) (st' : ServerState)
    (h : postPixel ownerWallet chain st req = (.invalidPayment e, st')) :
    st' = st ∧ ∃ reason, e = "Invalid payment: " ++ reason ∧
      verifyPaymentOnChain ownerWallet chain st.usedTxHashes req.payment
        (calcPrice (st.canvas (req.x, req.y))) = (.rejected reason, st.usedTxHashes) := by
  simp only [postPixel] at h
  repeat' split at h
  all_goals simp_all
  all_goals
    (obtain ⟨he, hst'⟩ := h
     rename_i hpay hver
     have hused := verify_rejected_used hver
     subst hused
     exact ⟨hst'.symm.trans rfl, _, he.symm, rfl, rfl⟩)

/-- C9 witness: `bob`'s replay of `0xh1` against `stAlice` is rejected and
the state is exactly `stAlice` afterwards. -/
theorem C9_witness :
    stAlice = stAlice ∧ ∃ reason,
      "Invalid payment: tx_hash already used" = "Invalid payment: " ++ reason ∧
      verifyPaymentOnChain ZERO_ADDRESS emptyChain stAlice.usedTxHashes reqBobReplay.payment
        (calcPrice (stAlice.canvas (reqBobReplay.x, reqBobReplay.y)))
        = (.rejected reason, stAlice.usedTxHashes) :=
  C9_rejection_preserves_state ZERO_ADDRESS emptyChain stAlice reqBobReplay
    "Invalid payment: tx_hash already used" stAlice rfl

/-- Rounding `Math.round(1.3 × m raw units)` gives the integer `⌊(13m + 5)/10⌋`. -/
theorem jsRound_nat_mul (m : ℕ) :
    jsRound ((m : ℚ) / 1000000 * PRICE_MULTIPLIER * 1000000)
      = (((13 * m + 5) / 10 : ℕ) : ℤ) := by
  have h : ((m : ℚ) / 1000000 * PRICE_MULTIPLIER * 1000000) + 1/2
      = (((13 * m + 5 : ℕ) : ℤ) : ℚ) / ((10 : ℕ) : ℚ) := by
    push_cast
    field_simp [PRICE_MULTIPLIER]
    ring
  rw [jsRound, h, Rat.floor_intCast_div_natCast]
  omega

/-- Applying `round6` to the multiplied price maps raw units to raw units. -/
theorem round6_mul_raw (m : ℕ) :
    round6 ((m : ℚ) / 1000000 * PRICE_MULTIPLIER)
      = (((13 * m + 5) / 10 : ℕ) : ℚ) / 1000000 := by
  rw [round6, jsRound_nat_mul, Int.cast_natCast]

/-- Evaluating `calcPrice` at a stored raw-unit price, in raw units. -/
theorem calcPrice_some_raw (pd : PixelData) (m : ℕ) (hm : pd.price = (m : ℚ) / 1000000) :
    calcPrice (some pd) = (((13 * m + 5) / 10 : ℕ) : ℚ) / 1000000 := by
  simp only [calcPrice, hm]
  exact round6_mul_raw m

/-- One multiplication step never decreases a raw-unit price. -/
theorem raw_mono (m : ℕ) :
    (m : ℚ) / 1000000 ≤ (((13 * m + 5) / 10 : ℕ) : ℚ) / 1000000 := by
  have h : m ≤ (13 * m + 5) / 10 := by omega
  gcongr


/-- On a well-formed canvas, every quote is a whole number of raw units. -/
theorem calcPrice_good {st : ServerState} (hg : GoodCanvas st) (x y : ℕ) :
    ∃ m : ℕ, calcPrice (st.canvas (x, y)) = (m : ℚ) / 1000000 := by
  cases hc : st.canvas (x, y) with
  | none => exact ⟨1000, by norm_num [calcPrice, INITIAL_PRICE]⟩
  | some pd =>
    obtain ⟨m, hm⟩ := hg x y pd hc
    exact ⟨(13 * m + 5) / 10, calcPrice_some_raw pd m hm⟩

/-- C8: the Price Engine is a pure function of the stored pixel state: a
never-claimed pixel is quoted `INITIAL_PRICE`; a claimed pixel is quoted the
previous paid price times `PRICE_MULTIPLIER`, rounded to the nearest 1e-6
unit half away from zero (for the nonnegative prices that occur,
JavaScript's `Math.round` agrees with round-half-away-from-zero); and along
any run of requests the raw-unit canvas invariant is preserved and every
settled claim leaves the pixel's next required price at least its previous
required price. -/
theorem C8_price_engine :
    calcPrice none = INITIAL_PRICE ∧
    (∀ pd : PixelData, 0 ≤ pd.price →
       calcPrice (some pd)
         = (roundHalfAwayFromZero (pd.price * PRICE_MULTIPLIER * 1000000) : ℚ) / 1000000) ∧
    GoodCanvas initialState ∧
    (∀ (ownerWallet : String) (chain : Chain) (st : ServerState) (req : ClaimRequest)
       (res : PostResult) (st' : ServerState), GoodCanvas st →
       postPixel ownerWallet chain st req = (res, st') →
       GoodCanvas st' ∧
       ∀ resp, res = .settled resp →
         calcPrice (st.canvas (req.x, req.y)) ≤ calcPrice (st'.canvas (req.x, req.y))) := by
  refine ⟨rfl, ?_, ?_, ?_⟩
  · intro pd hpd
    have hq : (0 : ℚ) ≤ pd.price * PRICE_MULTIPLIER * 1000000 := by
      have h1 : (0 : ℚ) ≤ PRICE_MULTIPLIER := by norm_num [PRICE_MULTIPLIER]
      positivity
    simp only [calcPrice, round6, roundHalfAwayFromZero, jsRound, if_pos hq]
  · intro x y pd h
    simp [initialState] at h
  · intro ownerWallet chain st req res st' hg hp
    cases res with
    | settled resp =>
      obtain ⟨proof, -, -, -, -, -, hpp, hcv, hother, -⟩ := postPixel_settled_spec hp
      obtain ⟨m, hm⟩ := calcPrice_good hg req.x req.y
      constructor
      · intro a b pd hpd
        by_cases hab : (a, b) = (req.x, req.y)
        · rw [hab, hcv] at hpd
          cases hpd
          exact ⟨m, hm⟩
        · exact hg a b pd ((hother (a, b) hab) ▸ hpd)
      · intro resp' hres
        rw [hcv, calcPrice_some_raw _ m hm, hm]
        exact raw_mono m
    | badRequest e =>
      rw [postPixel_not_settled_state hp rfl]
      exact ⟨hg, fun resp hres => by cases hres⟩
    | paymentRequired p =>
      rw [postPixel_not_settled_state hp rfl]
      exact ⟨hg, fun resp hres => by cases hres⟩
    | invalidPayment e =>
      rw [postPixel_not_settled_state hp rfl]
      exact ⟨hg, fun resp hres => by cases hres⟩

/-- C8 witness: the rounding rule evaluated at `alice`'s stored pixel, and
the monotonicity of the first concrete claim on a fresh server. -/
theorem C8_witness :
    calcPrice (some pdAlice)
      = (roundHalfAwayFromZero (pdAlice.price * PRICE_MULTIPLIER * 1000000) : ℚ) / 1000000 ∧
    (GoodCanvas (postPixel ZERO_ADDRESS emptyChain initialState reqAlice1).2 ∧
     ∀ resp, (postPixel ZERO_ADDRESS emptyChain initialState reqAlice1).1 = .settled resp →
       calcPrice (initialState.canvas (reqAlice1.x, reqAlice1.y))
         ≤ calcPrice ((postPixel ZERO_ADDRESS emptyChain initialState reqAlice1).2.canvas
             (reqAlice1.x, reqAlice1.y))) :=
  ⟨C8_price_engine.2.1 pdAlice (by norm_num [pdAlice]),
   C8_price_engine.2.2.2 ZERO_ADDRESS emptyChain initialState reqAlice1
     (postPixel ZERO_ADDRESS emptyChain initialState reqAlice1).1
     (postPixel ZERO_ADDRESS emptyChain initialState reqAlice1).2
     C8_price_engine.2.2.1 rfl⟩

/-- C7 counterexample: the HTTP server never checks for self-purchase.
`alice` already owns `(0,0)` in `stAlice`, yet her claim request for the
same pixel settles successfully (she pays the escalated price to re-own her
own pixel). -/
theorem C7_counterexample :
    jsTrim reqAlice2.agent_id = "alice" ∧
    (stAlice.canvas (0, 0)).map PixelData.owner = some "alice" ∧
    isSettled (postPixel ZERO_ADDRESS emptyChain stAlice reqAlice2).1 = true ∧
    ((postPixel ZERO_ADDRESS emptyChain stAlice reqAlice2).2.canvas (0, 0)).map
        PixelData.owner = some "alice" :=
  ⟨rfl, rfl, rfl, rfl⟩

/-- C7 (amended): only the on-chain contract enforces no-self-purchase:
whenever `capturePixel` succeeds, the sender was not the pixel's previous
owner (the `require` fires after the price sufficiency check, not before a
price is computed).  The off-chain server performs no ownership check, and a
pixel owner can successfully re-claim and re-pay for its own pixel — see the
counterexample. -/
theorem C7_contract_rejects_self_purchase (st : Treasury.TreasuryState) (sender : String)
    (x y amount : ℕ)
    (h : (Treasury.capturePixel st sender x y amount).isOk = true) :
    st.pixelOwner (x * 10000 + y) ≠ some sender := by
  intro hown
  simp only [Treasury.capturePixel, Treasury.encodePixelId] at h
  repeat' split at h
  all_goals simp only [bind, Except.bind] at h
  all_goals repeat' split at h
  all_goals simp_all [Except.isOk, Except.toBool, throw, throwThe, MonadExceptOf.throw]

/-- C7 witness: a fresh pixel is capturable at the base price, and the
contract state it started from indeed had no owner equal to the sender. -/
theorem C7_witness :
    (Treasury.capturePixel Treasury.initialTreasury "0xa" 0 0 1000).isOk = true ∧
    Treasury.initialTreasury.pixelOwner (0 * 10000 + 0) ≠ some "0xa" :=
  ⟨rfl, C7_contract_rejects_self_purchase Treasury.initialTreasury "0xa" 0 0 1000 rfl⟩

/-- C10 counterexample: after `alice`'s first claim of `(0,0)`, the stored
`price` attribute (returned by `GET /pixel/0/0`) is the 0.001 she paid,
while the Price Engine would quote 0.0013 for the next claim — the stored
price is not the next required payment. -/
theorem C10_counterexample :
    getPixel (postPixel ZERO_ADDRESS emptyChain initialState reqAlice1).2 0 0
      = .ok 0 0 (some "alice") (some "#aaaaaa") 0.001 (some 1) true ∧
    calcPrice ((postPixel ZERO_ADDRESS emptyChain initialState reqAlice1).2.canvas (0, 0))
      = 0.0013 ∧
    (0.001 : ℚ) ≠ 0.0013 := by
  refine ⟨rfl, ?_, by norm_num⟩
  have hcv : (postPixel ZERO_ADDRESS emptyChain initialState reqAlice1).2.canvas (0, 0)
      = some { owner := jsTrim "alice", color := "#aaaaaa", price := calcPrice none,
               timestamp := 1, tx_hash := "0xh1" } := rfl
  rw [hcv]
  norm_num [calcPrice, round6, jsRound, INITIAL_PRICE, PRICE_MULTIPLIER]

/-- C10 (amended): after every settled claim the stored `price` attribute
(and the `price` returned by `GET /pixel`) equals the price *paid* by that
claim, while the required payment for the *next* claim is recomputed fresh
as `round6(price × PRICE_MULTIPLIER)` and is what `GET /price` returns. -/
theorem C10_stored_price_is_price_paid (ownerWallet : String) (chain : Chain)
    (st : ServerState) (req : ClaimRequest) (resp : SettleResponse) (st' : ServerState)
    (h : postPixel ownerWallet chain st req = (.settled resp, st')) :
    st'.canvas (req.x, req.y)
      = some { owner := jsTrim req.agent_id, color := req.color, price := resp.price_paid,
               timestamp := req.now, tx_hash := resp.tx_hash } ∧
    getPixel st' req.x req.y
      = .ok req.x req.y (some (jsTrim req.agent_id)) (some req.color) resp.price_paid
          (some req.now) true ∧
    getPrice st' req.x req.y
      = .ok req.x req.y (round6 (resp.price_paid * PRICE_MULTIPLIER)) true
          (some (jsTrim req.agent_id)) := by
  obtain ⟨proof, hpay, htx, -, -, -, hpp, hcv, -, hx, hy⟩ := postPixel_settled_spec h
  have hcv' : st'.canvas (req.x, req.y)
      = some { owner := jsTrim req.agent_id, color := req.color, price := resp.price_paid,
               timestamp := req.now, tx_hash := resp.tx_hash } := by
    rw [hcv, ← hpp, ← htx]
  refine ⟨hcv', ?_, ?_⟩
  · simp [getPixel, hx, hy, hcv']
  · simp [getPrice, hx, hy, hcv', calcPrice]

/-- C10 witness: the amended description evaluated on `alice`'s concrete
first claim. -/
theorem C10_witness :
    (postPixel ZERO_ADDRESS emptyChain initialState reqAlice1).2.canvas (0, 0)
      = some { owner := "alice", color := "#aaaaaa", price := 0.001, timestamp := 1,
               tx_hash := "0xh1" } ∧
    getPixel (postPixel ZERO_ADDRESS emptyChain initialState reqAlice1).2 0 0
      = .ok 0 0 (some "alice") (some "#aaaaaa") 0.001 (some 1) true ∧
    getPrice (postPixel ZERO_ADDRESS emptyChain initialState reqAlice1).2 0 0
      = .ok 0 0 (round6 ((0.001 : ℚ) * PRICE_MULTIPLIER)) true (some "alice") :=
  C10_stored_price_is_price_paid ZERO_ADDRESS emptyChain initialState reqAlice1
    { x := 0, y := 0, color := "#aaaaaa", owner := jsTrim "alice",
      price_paid := calcPrice none, tx_hash := "0xh1",
      rebate_to_previous_owner := 0, treasury_cut := 0, loot_cut := 0, dev_cut := 0,
      previous_owner := none }
    (postPixel ZERO_ADDRESS emptyChain initialState reqAlice1).2 rfl

end PixelWar
